import Mathlib

/-!
Shallow embedding of the generation-to-render pipeline of the
obsidian-llm-graphviz plugin (src/processors.ts and src/main.ts).

Effectful steps (the network fetch, the temporary-file callbacks, the
subprocess) are modelled by passing their outcomes in explicitly as data;
each embedded function then mirrors the source's control flow branch by
branch and returns a trace recording the observable effects (nodes appended
to the container, whether the network was called, what was written to the
scratch file, whether the scratch file was cleaned up).

Modelling notes:
 - JavaScript string truthiness is `truthy`: a field is truthy when present
   with a non-empty string value.
 - `Object.keys` of the parsed response is modelled by `ResponseBody.keys`,
   listing the present known fields in a fixed order followed by any extra
   keys of the JSON object.
 - `Array.prototype.sort()` on deduplicated string lists is modelled by
   insertion sort over the lexicographic order on strings.
 - DOM details below the node level (the querySelector that adds a class to
   the inner svg element, the blob URL value) are not modelled; the node
   kind, its class attribute and its payload are.
-/

/-- The apostrophe character as a string (used inside error messages). -/
def sqc : String := String.singleton (Char.ofNat 39)

/-- JavaScript truthiness of an optional string field: present and non-empty. -/
def truthy : Option String → Bool
  | none => false
  | some s => s ≠ ""

/-- JavaScript `a || b` on optional string fields. -/
def jsOr (a b : Option String) : Option String := if truthy a then a else b

/-- JavaScript `a || d` where `d` is a plain string default. -/
def jsOrS (a : Option String) (d : String) : String :=
  if truthy a then a.getD "" else d

/-- JavaScript `s.trim()`: strip whitespace from both ends. -/
def jsTrim (s : String) : String :=
  String.mk (((s.data.dropWhile Char.isWhitespace).reverse.dropWhile Char.isWhitespace).reverse)

/-- Accumulate the maximal whitespace-free chunks of a character list
(the accumulator holds the current chunk reversed). -/
def wsSplitAux : List Char → List Char → List String
  | [], acc => if acc = [] then [] else [String.mk acc.reverse]
  | c :: cs, acc =>
      if c.isWhitespace then
        if acc = [] then wsSplitAux cs []
        else String.mk acc.reverse :: wsSplitAux cs []
      else wsSplitAux cs (c :: acc)

/-- JavaScript `s.split(/\s+/)` for strings with no leading or trailing
whitespace (the code always applies it to trimmed strings): the empty string
yields `[""]`, otherwise the maximal whitespace-free chunks. -/
def jsSplitWhitespace (s : String) : List String :=
  if s = "" then [""] else wsSplitAux s.data []

/-- Does the pattern occur at the head of the text? -/
def charsSubAt : List Char → List Char → Bool
  | [], _ => true
  | _ :: _, [] => false
  | p :: ps, t :: ts => p = t && charsSubAt ps ts

/-- Does the pattern occur anywhere in the text? -/
def charsHasSub : List Char → List Char → Bool
  | pat, [] => charsSubAt pat []
  | pat, t :: ts => charsSubAt pat (t :: ts) || charsHasSub pat ts

/-- JavaScript `s.includes(pat)`. -/
def jsIncludes (s pat : String) : Bool := charsHasSub pat.data s.data

/-- JavaScript `.filter((v, i, a) => a.indexOf(v) === i)`: keep the first
occurrence of each element, in order. -/
def jsDedup : List String → List String
  | [] => []
  | x :: xs => x :: jsDedup (xs.filter (fun y => y ≠ x))
termination_by l => l.length
decreasing_by simp only [List.length_cons]; exact Nat.lt_succ_of_le (List.length_filter_le _ _)

/-- JavaScript `.sort()` on a list of strings (lexicographic order). -/
def jsSort (l : List String) : List String := List.insertionSort (fun a b => a ≤ b) l

/-- The plugin settings consumed by the pipeline (setting.ts / main.ts).
`processingMode` is kept as a raw string: the dispatcher branches on its
runtime value and has an explicit unknown-mode branch. -/
structure GraphvizSettings where
  processingMode : String
  dotPath : String
  localDotOutputFormat : String
  apiKey : String
  model : String

/-- The parsed LLM response body: a loosely-shaped JSON object with the six
known optional fields plus any extra keys (whose values do not influence
behaviour, only their presence in `Object.keys`). -/
structure ResponseBody where
  dot_code : Option String := none
  svg_code : Option String := none
  dot : Option String := none
  svg : Option String := none
  error_message : Option String := none
  sometext : Option String := none
  extraKeys : List String := []

/-- `Object.keys(responseBody)`: the present known fields (in a fixed
modelling order) followed by the extra keys. -/
def ResponseBody.keys (b : ResponseBody) : List String :=
  (if b.dot_code.isSome then ["dot_code"] else [])
    ++ (if b.svg_code.isSome then ["svg_code"] else [])
    ++ (if b.dot.isSome then ["dot"] else [])
    ++ (if b.svg.isSome then ["svg"] else [])
    ++ (if b.error_message.isSome then ["error_message"] else [])
    ++ (if b.sometext.isSome then ["sometext"] else [])
    ++ b.extraKeys

/-- Outcome of the chat-completions fetch, as seen by callOpenAI:
transport failure, non-success status, malformed envelope (missing
choices/message/content), content that is not valid JSON, or a parsed body. -/
inductive ServiceReply where
  | fetchError (msg : String)
  | httpError (status : Nat) (statusText : String) (bodyText : String)
  | badEnvelope
  | parseFail (parseMsg : String) (raw : String)
  | content (body : ResponseBody) (raw : String)

/-- Trace of one callOpenAI invocation: whether the network request was
issued, the prompt that was sent (built from the full source text), and the
returned body or the thrown error message. -/
structure CallTrace where
  networkCalled : Bool
  prompt : Option String
  result : Except String ResponseBody

/-- The prompt sent to the service: the mode-specific instruction text with
the original description appended (processors.ts lines 453 and 474). -/
def promptContent (targetFormat source : String) : String :=
  if targetFormat = "svg" then
    "Please generate an SVG image based on the following description. Respond ONLY in the specified JSON format. The SVG code must be self-contained and renderable. Description: " ++ source
  else
    "Please generate Graphviz DOT language code based on the following description. Respond ONLY in the specified JSON format. The DOT code must be valid and renderable by Graphviz. Description: " ++ source

/-- `requiredCodeFieldWithSuffix`: the primary code key for the target format. -/
def primaryKey (targetFormat : String) : String :=
  if targetFormat = "svg" then "svg_code" else "dot_code"

/-- The value under the primary code key. -/
def primaryField (targetFormat : String) (b : ResponseBody) : Option String :=
  if targetFormat = "svg" then b.svg_code else b.dot_code

/-- The value under the alternate (legacy) code key, i.e. the key equal to
the target format itself (`requiredCodeFieldWithoutSuffix`). -/
def altField (targetFormat : String) (b : ResponseBody) : Option String :=
  if targetFormat = "svg" then b.svg else b.dot

/-- `Object.keys(responseBody).join(", ") || "none"`. -/
def receivedKeysStr (b : ResponseBody) : String :=
  if b.keys = [] then "none" else String.intercalate ", " b.keys

/-- The quoted list of checked keys in the malformed-response message. -/
def checkedKeysStr (targetFormat : String) : String :=
  sqc ++ primaryKey targetFormat ++ sqc ++ ", " ++ sqc ++ targetFormat ++ sqc
    ++ ", " ++ sqc ++ "error_message" ++ sqc

/-- The message thrown when no code field and no error-message field is
truthy (processors.ts line 556). -/
def missingFieldsMsg (targetFormat : String) (b : ResponseBody) : String :=
  "LLM response is missing any of the expected fields (" ++ checkedKeysStr targetFormat
    ++ "). Received keys: [" ++ receivedKeysStr b ++ "]"

/-- callOpenAI (processors.ts lines 440-565): credential check before any
network call, then transport / envelope / JSON-parse handling, then
field-presence validation by truthiness over the primary key, the alternate
key and the error-message key. -/
def callOpenAI (s : GraphvizSettings) (source targetFormat : String)
    (reply : ServiceReply) : CallTrace :=
  if s.apiKey = "" then
    ⟨false, none, .error "OpenAI API Key is not configured in settings."⟩
  else
    ⟨true, some (promptContent targetFormat source),
      match reply with
      | .fetchError m => .error m
      | .httpError status statusText bodyText =>
          .error ("OpenAI API request failed: " ++ toString status ++ " " ++ statusText
            ++ " - " ++ bodyText)
      | .badEnvelope => .error "Invalid response structure from OpenAI API."
      | .parseFail parseMsg raw =>
          .error ("Failed to parse LLM response JSON: " ++ parseMsg ++ ". Response: " ++ raw)
      | .content body _raw =>
          if truthy (primaryField targetFormat body) || truthy (altField targetFormat body)
              || truthy body.error_message then
            .ok body
          else
            .error (missingFieldsMsg targetFormat body)⟩

/-- Outcome of the spawned dot subprocess: an exit with a code (stdout
collected as the rendered bytes, stderr as diagnostic text), or a spawn
error (process could not be started). -/
inductive DotProcessOutcome where
  | exited (code : Int) (stdoutData : String) (stderrData : String)
  | spawnError (err : String)

/-- The argument list passed to the dot executable (processors.ts line 320). -/
def dotParameters (s : GraphvizSettings) (sourceFile : String) : List String :=
  ["-T" ++ s.localDotOutputFormat, "-Gbgcolor=transparent",
   "-Gstylesheet=obs-gviz.css", sourceFile]

/-- The command line as it appears in error messages:
`cmdPath ++ " " ++ parameters.join(" ")`. -/
def dotCommandLine (s : GraphvizSettings) (sourceFile : String) : String :=
  s.dotPath ++ " " ++ String.intercalate " " (dotParameters s sourceFile)

/-- writeDotFile (processors.ts lines 316-345): resolve with stdout on exit
code 0; reject with a message carrying the command line, exit code and
stderr on non-zero exit; reject with the command line and the spawn error
when the process cannot be started. -/
def writeDotFile (s : GraphvizSettings) (sourceFile : String)
    (proc : DotProcessOutcome) : Except String String :=
  match proc with
  | .exited code stdoutData stderrData =>
      if code ≠ 0 then
        .error ("\"" ++ dotCommandLine s sourceFile ++ "\" failed, error code: "
          ++ toString code ++ ", stderr: " ++ stderrData)
      else
        .ok stdoutData
  | .spawnError err =>
      .error ("\"" ++ dotCommandLine s sourceFile ++ "\" failed, " ++ err)

/-- Outcomes of the filesystem callbacks and the subprocess inside one
convertToImage invocation. -/
structure FsWorld where
  tmpError : Option String
  tmpPath : String
  writeError : Option String
  closeError : Option String
  proc : DotProcessOutcome

/-- Trace of one convertToImage invocation: whether the tmp cleanup callback
ran, what content reached the scratch file, and the settled result. -/
structure ConvertTrace where
  cleaned : Bool
  written : Option String
  result : Except String String

/-- convertToImage (processors.ts lines 347-384): allocate a scratch file,
write the dot source, close, run the engine; every exit path invokes the
cleanup callback before settling. -/
def convertToImage (s : GraphvizSettings) (dotSource : String) (w : FsWorld) : ConvertTrace :=
  match w.tmpError with
  | some e => ⟨true, none, .error e⟩
  | none =>
    match w.writeError with
    | some e => ⟨true, none, .error ("write to " ++ w.tmpPath ++ " error " ++ e)⟩
    | none =>
      match w.closeError with
      | some e => ⟨true, some dotSource, .error ("close " ++ w.tmpPath ++ " error " ++ e)⟩
      | none =>
        match writeDotFile s w.tmpPath w.proc with
        | .ok data => ⟨true, some dotSource, .ok data⟩
        | .error m => ⟨true, some dotSource, .error m⟩

/-- The visual nodes the pipeline can append to the container: an svg
container div with inlined markup, an image element backed by a blob of the
given mime type and bytes, or the preformatted error block. -/
inductive VisualNode where
  | svgContainer (classAttr : String) (markup : String)
  | image (classAttr : String) (mimeType : String) (data : String)
  | errorPre (cssClasses : List String) (text : String)
deriving DecidableEq

/-- The imageMimeType map (processors.ts lines 311-314). -/
def imageMimeType : String → Option String
  | "png" => some "image/png"
  | "svg" => some "image/svg+xml"
  | _ => none

/-- Trace of one renderDotLocally invocation. -/
structure RenderTrace where
  convert : ConvertTrace
  result : Except String VisualNode

/-- renderDotLocally (processors.ts lines 567-593): run convertToImage, then
build the final node from the configured local output format: inlined markup
in a container div when the format is svg, an image element otherwise. -/
def renderDotLocally (s : GraphvizSettings) (dotSource : String)
    (cssClasses : List String) (w : FsWorld) : RenderTrace :=
  let ct := convertToImage s dotSource w
  match ct.result with
  | .error e => ⟨ct, .error e⟩
  | .ok imageData =>
      if s.localDotOutputFormat = "svg" then
        ⟨ct, .ok (.svgContainer ("graphviz-svg-container " ++ String.intercalate " " cssClasses)
          imageData)⟩
      else
        ⟨ct, .ok (.image ("graphviz " ++ String.intercalate " " cssClasses)
          ((imageMimeType s.localDotOutputFormat).getD "application/octet-stream") imageData)⟩

/-- The opening-brace character. -/
def braceChar : Char := Char.ofNat 123

/-- The text preceding the first literal opening brace:
`source.split(brace, 1)[0]` for a single-character separator is the longest
brace-free leading segment of the text. -/
def beforeBrace (source : String) : String :=
  String.mk (source.data.takeWhile (fun c => c ≠ braceChar))

/-- The style tokens: `source.split(brace, 1)[0]?.trim() || ""` split on
whitespace (processors.ts lines 387-388). -/
def styleWords (source : String) : List String :=
  jsSplitWhitespace (jsTrim (beforeBrace source))

/-- Trace of one imageProcessor invocation: whether the network was called,
the prompt sent, the convertToImage trace when the local render path ran,
and the nodes appended to the container. -/
structure ProcTrace where
  networkCalled : Bool
  prompt : Option String
  convert : Option ConvertTrace
  nodes : List VisualNode

/-- Intermediate result of the try block of imageProcessor. -/
structure TryResult where
  networkCalled : Bool
  prompt : Option String
  convert : Option ConvertTrace
  outcome : Except String VisualNode

/-- The try block of imageProcessor (processors.ts lines 391-427): dispatch
on the processing mode, call the generation client, select the code field
primary-key-first, and build the success node or throw. -/
def imageProcessorTry (s : GraphvizSettings) (source : String) (reply : ServiceReply)
    (w : FsWorld) : TryResult :=
  let cls := String.intercalate " " (styleWords source)
  if s.processingMode = "svg" then
    let c := callOpenAI s source "svg" reply
    match c.result with
    | .error e => ⟨c.networkCalled, c.prompt, none, .error e⟩
    | .ok body =>
        let svgCode := jsOr body.svg_code body.svg
        if truthy svgCode then
          ⟨c.networkCalled, c.prompt, none,
            .ok (.svgContainer ("graphviz-svg-container " ++ cls) (svgCode.getD ""))⟩
        else
          ⟨c.networkCalled, c.prompt, none,
            .error (jsOrS body.error_message
              "LLM failed to generate SVG code (checked keys: svg_code, svg).")⟩
  else if s.processingMode = "dot" then
    let c := callOpenAI s source "dot" reply
    match c.result with
    | .error e => ⟨c.networkCalled, c.prompt, none, .error e⟩
    | .ok body =>
        let dotCode := jsOr body.dot_code body.dot
        if truthy dotCode then
          let rt := renderDotLocally s (dotCode.getD "") (styleWords source) w
          ⟨c.networkCalled, c.prompt, some rt.convert, rt.result⟩
        else
          ⟨c.networkCalled, c.prompt, none,
            .error (jsOrS body.error_message
              "LLM failed to generate DOT code (checked keys: dot_code, dot).")⟩
  else
    ⟨false, none, none, .error ("Unknown processing mode: " ++ s.processingMode)⟩

/-- imageProcessor (processors.ts lines 386-438): run the try block; on
success append the produced node, on any failure append one `pre` node with
the css class graphviz-error containing a `code` child with the message. -/
def imageProcessor (s : GraphvizSettings) (source : String) (reply : ServiceReply)
    (w : FsWorld) : ProcTrace :=
  let t := imageProcessorTry s source reply w
  match t.outcome with
  | .ok node => ⟨t.networkCalled, t.prompt, t.convert, [node]⟩
  | .error e => ⟨t.networkCalled, t.prompt, t.convert, [.errorPre ["graphviz-error"] e]⟩

/-- Outcome of the models-listing fetch in main.ts fetchModels. -/
inductive ModelsReply where
  | fetchError (msg : String)
  | httpError (status : Nat) (statusText : String) (bodyText : String)
  | ok (ids : List String)

/-- The fixed built-in default model list (main.ts line 51). -/
def defaultModels : List String := ["gpt-4o-mini", "gpt-4", "gpt-3.5-turbo"]

/-- fetchModels (main.ts lines 49-89): with no credential, or on a
non-success status, or on a thrown fetch error, return the defaults merged
with the configured model, deduplicated and sorted; on success return the
gpt-substring-filtered catalog merged with the configured model and the
defaults, deduplicated and sorted. It never throws to its caller. -/
def fetchModels (s : GraphvizSettings) (reply : ModelsReply) : List String :=
  if s.apiKey = "" then
    jsSort (jsDedup (defaultModels ++ [s.model]))
  else
    match reply with
    | .ok ids =>
        let fetched := ids.filter (fun m => jsIncludes m "gpt")
        jsSort (jsDedup (fetched ++ [s.model] ++ defaultModels))
    | .httpError _ _ _ =>
        jsSort (jsDedup (defaultModels ++ [s.model]))
    | .fetchError _ =>
        jsSort (jsDedup (defaultModels ++ [s.model]))

/-! ## Helper lemmas -/

theorem mem_jsDedup (x : String) : (l : List String) → (x ∈ jsDedup l ↔ x ∈ l)
  | [] => by simp [jsDedup]
  | y :: ys => by
      have ih := mem_jsDedup x (ys.filter (fun z => z ≠ y))
      by_cases hxy : x = y
      · subst hxy; simp [jsDedup]
      · simp only [jsDedup, List.mem_cons, hxy, false_or]
        rw [ih]
        simp [List.mem_filter, hxy]
termination_by l => l.length
decreasing_by simp only [List.length_cons]; exact Nat.lt_succ_of_le (List.length_filter_le _ _)

theorem nodup_jsDedup : (l : List String) → (jsDedup l).Nodup
  | [] => by simp [jsDedup]
  | y :: ys => by
      have ih := nodup_jsDedup (ys.filter (fun z => z ≠ y))
      have hy : y ∉ jsDedup (ys.filter (fun z => z ≠ y)) := by
        intro hmem
        rw [mem_jsDedup] at hmem
        simp [List.mem_filter] at hmem
      simp only [jsDedup]
      exact List.nodup_cons.mpr ⟨hy, ih⟩
termination_by l => l.length
decreasing_by simp only [List.length_cons]; exact Nat.lt_succ_of_le (List.length_filter_le _ _)

/-! ## Claims -/

/-- C3: convertToImage deletes the allocated scratch file on every exit
path — allocation failure, write failure, close failure, renderer failure
and renderer success — before its promise settles with the corresponding
result, so the allocated path no longer exists after the invocation. -/
theorem convertToImage_cleanup (s : GraphvizSettings) (dotSource : String) (w : FsWorld) :
    (convertToImage s dotSource w).cleaned = true
    ∧ (∀ e, w.tmpError = some e → (convertToImage s dotSource w).result = .error e)
    ∧ (∀ e, w.tmpError = none → w.writeError = some e →
        (convertToImage s dotSource w).result
          = .error ("write to " ++ w.tmpPath ++ " error " ++ e))
    ∧ (∀ e, w.tmpError = none → w.writeError = none → w.closeError = some e →
        (convertToImage s dotSource w).result
          = .error ("close " ++ w.tmpPath ++ " error " ++ e))
    ∧ (w.tmpError = none → w.writeError = none → w.closeError = none →
        (convertToImage s dotSource w).result = writeDotFile s w.tmpPath w.proc) := by
  obtain ⟨te, tp, we, ce, proc⟩ := w
  refine ⟨?_, ?_, ?_, ?_, ?_⟩
  · cases te <;> cases we <;> cases ce <;> simp [convertToImage] <;>
      cases h : writeDotFile s tp proc <;> simp [h]
  · intro e he
    simp at he
    subst he
    simp [convertToImage]
  · intro e h1 h2
    simp at h1 h2
    subst h1; subst h2
    simp [convertToImage]
  · intro e h1 h2 h3
    simp at h1 h2 h3
    subst h1; subst h2; subst h3
    simp [convertToImage]
  · intro h1 h2 h3
    simp at h1 h2 h3
    subst h1; subst h2; subst h3
    simp [convertToImage]
    cases h : writeDotFile s tp proc <;> simp [h]

theorem convertToImage_cleanup_witness :
    (convertToImage ⟨"dot", "dot", "png", "key", "m"⟩ "digraph"
        ⟨none, "/tmp/x", none, none, .exited 0 "out" ""⟩).cleaned = true
    ∧ (convertToImage ⟨"dot", "dot", "png", "key", "m"⟩ "digraph"
        ⟨none, "/tmp/x", none, none, .exited 0 "out" ""⟩).result
      = writeDotFile ⟨"dot", "dot", "png", "key", "m"⟩ "/tmp/x" (.exited 0 "out" "") :=
  ⟨(convertToImage_cleanup _ _ _).1,
   (convertToImage_cleanup _ _ _).2.2.2.2 rfl rfl rfl⟩

/-- C4: with no API credential configured, callOpenAI fails with the
configuration error before issuing any network request: the trace records
that no network call was made and no prompt was sent, for every description
and every possible service reply. -/
theorem callOpenAI_no_credential (s : GraphvizSettings) (source targetFormat : String)
    (reply : ServiceReply) (h : s.apiKey = "") :
    callOpenAI s source targetFormat reply
      = ⟨false, none, .error "OpenAI API Key is not configured in settings."⟩ := by
  simp [callOpenAI, h]

theorem callOpenAI_no_credential_witness :
    callOpenAI ⟨"dot", "dot", "png", "", "gpt-4o-mini"⟩ "draw a graph" "dot" .badEnvelope
      = ⟨false, none, .error "OpenAI API Key is not configured in settings."⟩ :=
  callOpenAI_no_credential _ _ _ _ rfl

/-- C5: when the dot subprocess exits with a non-zero code, writeDotFile
fails with a message carrying the invoked command line (executable path and
arguments), the exit code and the captured stderr text; when the process
cannot be spawned it fails with a message carrying the command line and the
spawn error but no exit code. -/
theorem writeDotFile_failure_messages (s : GraphvizSettings) (sourceFile : String)
    (code : Int) (stdoutData stderrData err : String) (h : code ≠ 0) :
    writeDotFile s sourceFile (.exited code stdoutData stderrData)
        = .error ("\"" ++ dotCommandLine s sourceFile ++ "\" failed, error code: "
            ++ toString code ++ ", stderr: " ++ stderrData)
    ∧ writeDotFile s sourceFile (.spawnError err)
        = .error ("\"" ++ dotCommandLine s sourceFile ++ "\" failed, " ++ err) := by
  constructor
  · simp [writeDotFile, h]
  · rfl

theorem writeDotFile_failure_messages_witness :
    writeDotFile ⟨"dot", "/usr/bin/dot", "png", "key", "m"⟩ "/tmp/g.dot"
        (.exited 1 "" "syntax error")
      = .error ("\"" ++ dotCommandLine ⟨"dot", "/usr/bin/dot", "png", "key", "m"⟩ "/tmp/g.dot"
          ++ "\" failed, error code: " ++ toString (1 : Int) ++ ", stderr: " ++ "syntax error")
    ∧ writeDotFile ⟨"dot", "/usr/bin/dot", "png", "key", "m"⟩ "/tmp/g.dot"
        (.spawnError "spawn dot ENOENT")
      = .error ("\"" ++ dotCommandLine ⟨"dot", "/usr/bin/dot", "png", "key", "m"⟩ "/tmp/g.dot"
          ++ "\" failed, " ++ "spawn dot ENOENT") :=
  writeDotFile_failure_messages _ _ _ _ _ _ (by decide)

/-- C1: for every input block and every failure raised inside the try block
(generation client, temporary-file manager, rendering-engine invoker or
mode dispatcher), imageProcessor appends to the container exactly one
preformatted error node carrying the marker class graphviz-error and the
failure's message text; the error is never propagated to the caller. -/
theorem imageProcessor_error_node (s : GraphvizSettings) (source : String)
    (reply : ServiceReply) (w : FsWorld) (e : String)
    (h : (imageProcessorTry s source reply w).outcome = .error e) :
    (imageProcessor s source reply w).nodes = [.errorPre ["graphviz-error"] e] := by
  simp [imageProcessor, h]

theorem imageProcessor_error_node_witness :
    (imageProcessor ⟨"svg", "dot", "png", "", "m"⟩ "desc" .badEnvelope
        ⟨none, "p", none, none, .exited 0 "" ""⟩).nodes
      = [.errorPre ["graphviz-error"] "OpenAI API Key is not configured in settings."] :=
  imageProcessor_error_node _ _ _ _ _ (by rfl)

/-- C2 counterexample: a parsed response whose dot_code key is present but
holds the empty string is rejected by callOpenAI, so acceptance is not
equivalent to mere key presence. -/
theorem callOpenAI_presence_counterexample :
    (({ dot_code := some "" } : ResponseBody).dot_code).isSome = true
    ∧ (callOpenAI ⟨"dot", "dot", "png", "key", "m"⟩ "d" "dot"
        (.content { dot_code := some "" } "raw")).result
      = .error (missingFieldsMsg "dot" { dot_code := some "" }) := by
  constructor
  · rfl
  · rfl

/-- C2 (amended): for every successfully parsed service response, callOpenAI
accepts it iff at least one of the primary code key, the alternate legacy
code key or the error-message key is present with a non-empty value;
otherwise it fails with an error whose message names the checked keys and
the keys actually received. -/
theorem callOpenAI_field_validation (s : GraphvizSettings) (source targetFormat raw : String)
    (body : ResponseBody) (h : s.apiKey ≠ "") :
    ((callOpenAI s source targetFormat (.content body raw)).result = .ok body
       ↔ (truthy (primaryField targetFormat body) = true
           ∨ truthy (altField targetFormat body) = true
           ∨ truthy body.error_message = true))
    ∧ (truthy (primaryField targetFormat body) = false →
       truthy (altField targetFormat body) = false →
       truthy body.error_message = false →
        (callOpenAI s source targetFormat (.content body raw)).result
          = .error ("LLM response is missing any of the expected fields ("
              ++ checkedKeysStr targetFormat ++ "). Received keys: ["
              ++ receivedKeysStr body ++ "]")) := by
  constructor
  · by_cases hp : truthy (primaryField targetFormat body) <;>
    by_cases ha : truthy (altField targetFormat body) <;>
    by_cases he : truthy body.error_message <;>
    simp [callOpenAI, h, hp, ha, he]
  · intro hp ha he
    simp [callOpenAI, h, hp, ha, he, missingFieldsMsg]

theorem callOpenAI_field_validation_witness :
    (callOpenAI ⟨"dot", "dot", "png", "key", "m"⟩ "d" "dot"
        (.content { dot_code := some "digraph" } "raw")).result
      = .ok { dot_code := some "digraph" } :=
  (callOpenAI_field_validation _ _ _ _ _ (by decide)).1.mpr (Or.inl (by decide))

/-- C6 counterexample: the input "hello world" contains no opening brace,
yet the code produces the style tokens ["hello", "world"], not zero tokens. -/
theorem styleWords_no_brace_counterexample :
    styleWords "hello world" = ["hello", "world"]
    ∧ styleWords "hello world" ≠ [] := by
  constructor
  · decide
  · decide

/-- C6 (amended): the text preceding the first opening brace is
whitespace-split into styling tokens attached to the produced node's class
list (the example input yields tokens ["flowchart", "important"]); for an
input containing no opening brace the entire trimmed text is
whitespace-split into the tokens; and the whole input text is passed
through as the description inside the generation prompt. -/
theorem styleWords_spec (s : GraphvizSettings) (source raw : String)
    (body : ResponseBody) (w : FsWorld)
    (hmode : s.processingMode = "svg") (hk : s.apiKey ≠ "")
    (hcode : truthy body.svg_code = true) :
    (imageProcessor s source (.content body raw) w).nodes
      = [.svgContainer ("graphviz-svg-container "
          ++ String.intercalate " " (styleWords source))
          ((jsOr body.svg_code body.svg).getD "")]
    ∧ (imageProcessor s source (.content body raw) w).prompt
      = some (promptContent "svg" source)
    ∧ styleWords "flowchart important \x7bA->B\x7d" = ["flowchart", "important"]
    ∧ ((∀ c ∈ source.data, c ≠ braceChar) →
        styleWords source = jsSplitWhitespace (jsTrim source)) := by
  have hcall : callOpenAI s source "svg" (.content body raw)
      = ⟨true, some (promptContent "svg" source), .ok body⟩ := by
    simp [callOpenAI, hk, primaryField, hcode]
  have htr : truthy (jsOr body.svg_code body.svg) = true := by
    simp [jsOr, hcode]
  refine ⟨?_, ?_, by decide, ?_⟩
  · simp [imageProcessor, imageProcessorTry, hmode, hcall, htr]
  · simp [imageProcessor, imageProcessorTry, hmode, hcall, htr]
  · intro hnb
    have ht : source.data.takeWhile (fun c => c ≠ braceChar) = source.data :=
      List.takeWhile_eq_self_iff.mpr (by simpa using hnb)
    have hb : beforeBrace source = source := by
      unfold beforeBrace
      rw [ht]
    unfold styleWords
    rw [hb]

theorem styleWords_spec_witness :
    (imageProcessor ⟨"svg", "dot", "png", "key", "m"⟩ "flowchart important \x7bA->B\x7d"
        (.content { svg_code := some "<svg></svg>" } "raw")
        ⟨none, "p", none, none, .exited 0 "" ""⟩).nodes
      = [.svgContainer ("graphviz-svg-container "
          ++ String.intercalate " " (styleWords "flowchart important \x7bA->B\x7d"))
          ((jsOr (some "<svg></svg>") (none : Option String)).getD "")]
    ∧ (imageProcessor ⟨"svg", "dot", "png", "key", "m"⟩ "flowchart important \x7bA->B\x7d"
        (.content { svg_code := some "<svg></svg>" } "raw")
        ⟨none, "p", none, none, .exited 0 "" ""⟩).prompt
      = some (promptContent "svg" "flowchart important \x7bA->B\x7d") :=
  ⟨(styleWords_spec _ _ _ _ _ rfl (by decide) (by decide)).1,
   (styleWords_spec _ _ _ _ _ rfl (by decide) (by decide)).2.1⟩

/-- C7 counterexample: a response containing only an error-message field
whose message is the empty string leads to the malformed-response error
text (which is non-empty), not to a node whose text equals that empty
message. -/
theorem errorMessage_node_counterexample :
    (imageProcessor ⟨"svg", "dot", "png", "key", "m"⟩ "d"
        (.content { error_message := some "" } "raw")
        ⟨none, "p", none, none, .exited 0 "" ""⟩).nodes
      = [.errorPre ["graphviz-error"] (missingFieldsMsg "svg" { error_message := some "" })]
    ∧ missingFieldsMsg "svg" { error_message := some "" } ≠ "" := by
  constructor
  · decide
  · decide

/-- C7 (amended): for every service response containing only an
error-message field holding a non-empty message (and no code field under
any key), the pipeline's final visible node is an error node whose text
equals that message exactly. -/
theorem errorMessage_error_node (s : GraphvizSettings) (source raw msg : String)
    (w : FsWorld) (hk : s.apiKey ≠ "") (hmsg : msg ≠ "")
    (hmode : s.processingMode = "svg" ∨ s.processingMode = "dot") :
    (imageProcessor s source (.content { error_message := some msg } raw) w).nodes
      = [.errorPre ["graphviz-error"] msg] := by
  have hem : truthy (some msg) = true := by simp [truthy, hmsg]
  rcases hmode with hmode | hmode
  · have hcall : callOpenAI s source "svg" (.content { error_message := some msg } raw)
        = ⟨true, some (promptContent "svg" source), .ok { error_message := some msg }⟩ := by
      simp [callOpenAI, hk, hem, primaryField, altField]
    simp [imageProcessor, imageProcessorTry, hmode, hcall, jsOr, truthy, jsOrS, hmsg]
  · have hcall : callOpenAI s source "dot" (.content { error_message := some msg } raw)
        = ⟨true, some (promptContent "dot" source), .ok { error_message := some msg }⟩ := by
      simp [callOpenAI, hk, hem, primaryField, altField]
    simp [imageProcessor, imageProcessorTry, hmode, hcall, jsOr, truthy, jsOrS, hmsg]

theorem errorMessage_error_node_witness :
    (imageProcessor ⟨"svg", "dot", "png", "key", "m"⟩ "draw"
        (.content { error_message := some "Cannot draw this." } "raw")
        ⟨none, "p", none, none, .exited 0 "" ""⟩).nodes
      = [.errorPre ["graphviz-error"] "Cannot draw this."] :=
  errorMessage_error_node _ _ _ _ _ (by decide) (by decide) (Or.inl rfl)

theorem renderDotLocally_convert (s : GraphvizSettings) (d : String)
    (c : List String) (w : FsWorld) :
    (renderDotLocally s d c w).convert = convertToImage s d w := by
  unfold renderDotLocally
  cases h : (convertToImage s d w).result
  · simp [h]
  · simp only [h]
    split <;> rfl

/-- C8: in the local-source render path, for every successful engine run the
final visual node is determined by the configured output-format setting and
not by the processing mode: vector output is inlined as markup in a
container carrying the root styling class, any other format produces an
image element referencing the rendered bytes. -/
theorem renderDotLocally_format (s : GraphvizSettings) (dotSource : String)
    (cssClasses : List String) (w : FsWorld) (data : String)
    (hok : (convertToImage s dotSource w).result = .ok data) :
    (s.localDotOutputFormat = "svg" →
        (renderDotLocally s dotSource cssClasses w).result
          = .ok (.svgContainer ("graphviz-svg-container "
              ++ String.intercalate " " cssClasses) data))
    ∧ (s.localDotOutputFormat ≠ "svg" →
        (renderDotLocally s dotSource cssClasses w).result
          = .ok (.image ("graphviz " ++ String.intercalate " " cssClasses)
              ((imageMimeType s.localDotOutputFormat).getD "application/octet-stream") data))
    ∧ (∀ m, renderDotLocally { s with processingMode := m } dotSource cssClasses w
          = renderDotLocally s dotSource cssClasses w) := by
  refine ⟨?_, ?_, ?_⟩
  · intro hf
    simp [renderDotLocally, hok, hf]
  · intro hf
    simp [renderDotLocally, hok, hf]
  · intro m
    rfl

theorem renderDotLocally_format_witness :
    (renderDotLocally ⟨"dot", "dot", "png", "key", "m"⟩ "digraph" ["a"]
        ⟨none, "p", none, none, .exited 0 "IMGBYTES" ""⟩).result
      = .ok (.image ("graphviz " ++ String.intercalate " " ["a"])
          ((imageMimeType "png").getD "application/octet-stream") "IMGBYTES") :=
  (renderDotLocally_format _ _ _ _ _ (by rfl)).2.1 (by decide)

/-- C9: fetchModels never raises to its caller: on missing credential,
network failure or non-success status it returns the fixed built-in default
list merged with the currently configured model; on success it returns the
gpt-filtered catalog merged with the configured model and the defaults; in
every case the returned list is deduplicated and sorted. -/
theorem fetchModels_spec (s : GraphvizSettings) (reply : ModelsReply) :
    (fetchModels s reply).Sorted (fun a b => a ≤ b)
    ∧ (fetchModels s reply).Nodup
    ∧ (s.apiKey = "" →
        ∀ x, x ∈ fetchModels s reply ↔ (x ∈ defaultModels ∨ x = s.model))
    ∧ (∀ msg, s.apiKey ≠ "" → reply = .fetchError msg →
        ∀ x, x ∈ fetchModels s reply ↔ (x ∈ defaultModels ∨ x = s.model))
    ∧ (∀ status statusText bodyText, s.apiKey ≠ "" →
        reply = .httpError status statusText bodyText →
        ∀ x, x ∈ fetchModels s reply ↔ (x ∈ defaultModels ∨ x = s.model))
    ∧ (∀ ids, s.apiKey ≠ "" → reply = .ok ids →
        ∀ x, x ∈ fetchModels s reply ↔
          ((x ∈ ids ∧ jsIncludes x "gpt" = true) ∨ x = s.model ∨ x ∈ defaultModels)) := by
  have hsort : ∀ l : List String, (jsSort l).Sorted (fun a b => a ≤ b) :=
    fun l => List.sorted_insertionSort _ l
  have hnodup : ∀ l : List String, (jsSort (jsDedup l)).Nodup :=
    fun l => (List.perm_insertionSort _ _).nodup_iff.2 (nodup_jsDedup l)
  have hmem : ∀ (l : List String) (x : String), x ∈ jsSort (jsDedup l) ↔ x ∈ l := by
    intro l x
    rw [jsSort, List.mem_insertionSort, mem_jsDedup]
  refine ⟨?_, ?_, ?_, ?_, ?_, ?_⟩
  · by_cases hk : s.apiKey = ""
    · simp only [fetchModels, if_pos hk]
      exact hsort _
    · cases reply <;> simp only [fetchModels, if_neg hk] <;> exact hsort _
  · by_cases hk : s.apiKey = ""
    · simp only [fetchModels, if_pos hk]
      exact hnodup _
    · cases reply <;> simp only [fetchModels, if_neg hk] <;> exact hnodup _
  · intro hk x
    simp only [fetchModels, if_pos hk]
    rw [hmem]
    simp
  · intro msg hk hr x
    subst hr
    simp only [fetchModels, if_neg hk]
    rw [hmem]
    simp
  · intro status statusText bodyText hk hr x
    subst hr
    simp only [fetchModels, if_neg hk]
    rw [hmem]
    simp
  · intro ids hk hr x
    subst hr
    simp only [fetchModels, if_neg hk]
    rw [hmem]
    simp [List.mem_filter, or_assoc]

theorem fetchModels_spec_witness :
    (fetchModels ⟨"dot", "dot", "png", "", "zzz"⟩ (.fetchError "boom")).Nodup
    ∧ ("zzz" ∈ fetchModels ⟨"dot", "dot", "png", "", "zzz"⟩ (.fetchError "boom")
        ↔ ("zzz" ∈ defaultModels ∨ "zzz" = "zzz")) :=
  ⟨(fetchModels_spec _ _).2.1, (fetchModels_spec _ _).2.2.1 rfl "zzz"⟩

/-- C10: when a parsed response carries both a non-empty code field (under
the primary or the alternate key) and an error-message field, the dispatcher
renders the code and the error message does not influence the produced
trace; the primary key (dot_code / svg_code) is consulted before the
alternate key (dot / svg). -/
theorem codeField_precedence (s : GraphvizSettings) (source raw : String)
    (body : ResponseBody) (em : Option String) (w : FsWorld)
    (hk : s.apiKey ≠ "") :
    (s.processingMode = "svg" →
      (truthy body.svg_code = true ∨ truthy body.svg = true) →
        imageProcessor s source (.content { body with error_message := em } raw) w
          = imageProcessor s source (.content { body with error_message := none } raw) w
        ∧ (imageProcessor s source (.content { body with error_message := em } raw) w).nodes
          = [.svgContainer ("graphviz-svg-container "
              ++ String.intercalate " " (styleWords source))
              (if truthy body.svg_code = true then body.svg_code.getD ""
               else body.svg.getD "")])
    ∧ (s.processingMode = "dot" →
      (truthy body.dot_code = true ∨ truthy body.dot = true) →
        imageProcessor s source (.content { body with error_message := em } raw) w
          = imageProcessor s source (.content { body with error_message := none } raw) w
        ∧ (imageProcessor s source (.content { body with error_message := em } raw) w).convert
          = some (convertToImage s
              (if truthy body.dot_code = true then body.dot_code.getD ""
               else body.dot.getD "") w)) := by
  have hgetD : ∀ (a b : Option String),
      (jsOr a b).getD "" = if truthy a = true then a.getD "" else b.getD "" := by
    intro a b
    by_cases ha : truthy a = true <;> simp [jsOr, ha]
  have hsel : ∀ (a b : Option String), truthy a = true ∨ truthy b = true →
      truthy (jsOr a b) = true := by
    intro a b h
    by_cases ha : truthy a = true
    · simp [jsOr, ha]
    · have hb := h.resolve_left ha
      simp [jsOr, ha, hb]
  constructor
  · intro hmode hcode
    have htr : truthy (jsOr body.svg_code body.svg) = true := hsel _ _ hcode
    have main : ∀ e : Option String,
        imageProcessor s source (.content { body with error_message := e } raw) w
          = ⟨true, some (promptContent "svg" source), none,
             [.svgContainer ("graphviz-svg-container "
                 ++ String.intercalate " " (styleWords source))
               (if truthy body.svg_code = true then body.svg_code.getD ""
                else body.svg.getD "")]⟩ := by
      intro e
      have hcall : callOpenAI s source "svg" (.content { body with error_message := e } raw)
          = ⟨true, some (promptContent "svg" source), .ok { body with error_message := e }⟩ := by
        rcases hcode with h | h <;> simp [callOpenAI, hk, primaryField, altField, h]
      simp [imageProcessor, imageProcessorTry, hmode, hcall, htr, hgetD]
    exact ⟨(main em).trans (main none).symm, by rw [main em]⟩
  · intro hmode hcode
    have htr : truthy (jsOr body.dot_code body.dot) = true := hsel _ _ hcode
    have htry : ∀ e : Option String,
        imageProcessorTry s source (.content { body with error_message := e } raw) w
          = ⟨true, some (promptContent "dot" source),
             some (renderDotLocally s ((jsOr body.dot_code body.dot).getD "")
               (styleWords source) w).convert,
             (renderDotLocally s ((jsOr body.dot_code body.dot).getD "")
               (styleWords source) w).result⟩ := by
      intro e
      have hcall : callOpenAI s source "dot" (.content { body with error_message := e } raw)
          = ⟨true, some (promptContent "dot" source), .ok { body with error_message := e }⟩ := by
        rcases hcode with h | h <;> simp [callOpenAI, hk, primaryField, altField, h]
      simp [imageProcessorTry, hmode, hcall, htr]
    constructor
    · unfold imageProcessor
      rw [htry em, htry none]
    · unfold imageProcessor
      rw [htry em]
      rw [← hgetD]
      cases hres : (renderDotLocally s ((jsOr body.dot_code body.dot).getD "")
          (styleWords source) w).result <;>
        simp [hres, renderDotLocally_convert]

theorem codeField_precedence_witness :
    imageProcessor ⟨"svg", "dot", "png", "key", "m"⟩ "d"
        (.content { ({ svg_code := some "<svg></svg>" } : ResponseBody) with
            error_message := some "oops" } "raw")
        ⟨none, "p", none, none, .exited 0 "" ""⟩
      = imageProcessor ⟨"svg", "dot", "png", "key", "m"⟩ "d"
        (.content { ({ svg_code := some "<svg></svg>" } : ResponseBody) with
            error_message := none } "raw")
        ⟨none, "p", none, none, .exited 0 "" ""⟩
    ∧ (imageProcessor ⟨"svg", "dot", "png", "key", "m"⟩ "d"
        (.content { ({ svg_code := some "<svg></svg>" } : ResponseBody) with
            error_message := some "oops" } "raw")
        ⟨none, "p", none, none, .exited 0 "" ""⟩).nodes
      = [.svgContainer ("graphviz-svg-container "
          ++ String.intercalate " " (styleWords "d"))
          (if truthy ({ svg_code := some "<svg></svg>" } : ResponseBody).svg_code = true
           then (({ svg_code := some "<svg></svg>" } : ResponseBody).svg_code).getD ""
           else (({ svg_code := some "<svg></svg>" } : ResponseBody).svg).getD "")] :=
  (codeField_precedence _ _ _ _ _ _ (by decide)).1 rfl (Or.inl (by decide))
